import Mathlib

/-!
Shallow embedding of the covid19_etl transform-and-validate pipeline
(src/utils.py, src/transformers/*, src/validators/data_validator.py).

A pandas DataFrame is modelled as an ordered list of named columns; a cell
is a dynamically-typed value (null / number / string / date).  Numbers are
modelled as rationals.  Each pandas column carries a dtype, modelled here by
the `Dtype` tag that the type-dispatched stages branch on
(`pd.api.types.is_numeric_dtype` / `is_datetime64_dtype` / object).
-/

namespace CovidEtl

/-- Cell values: null (NaN/None/NaT), a number, a string, or a date. -/
inductive Cell where
  | null : Cell
  | num : Rat → Cell
  | str : String → Cell
  | date : Nat → Nat → Nat → Cell
deriving DecidableEq

/-- Column dtype, as probed by pandas `is_numeric_dtype` / `is_datetime64_dtype`;
everything else is an object (textual) column. -/
inductive Dtype where
  | numeric : Dtype
  | datetime : Dtype
  | object : Dtype
deriving DecidableEq

/-- A named column of a DataFrame. -/
structure Column where
  name : String
  dtype : Dtype
  cells : List Cell
deriving DecidableEq

/-- A DataFrame: an ordered list of columns. -/
structure DataFrame where
  cols : List Column
deriving DecidableEq

/-- Column names, in order (`df.columns`). -/
def DataFrame.names (df : DataFrame) : List String :=
  df.cols.map Column.name

/-- Test `name in df.columns`. -/
def DataFrame.hasCol (df : DataFrame) (n : String) : Bool :=
  df.cols.any (fun c => c.name == n)

/-- Look a column up by name. -/
def DataFrame.findCol (df : DataFrame) (n : String) : Option Column :=
  df.cols.find? (fun c => c.name == n)

/-- Column assignment `df[n] = series`: overwrite in place if the name exists,
else append the new column at the end (pandas assignment semantics). -/
def DataFrame.setCol (df : DataFrame) (n : String) (d : Dtype) (cs : List Cell) : DataFrame :=
  if df.hasCol n then
    ⟨df.cols.map (fun c => if c.name == n then ⟨n, d, cs⟩ else c)⟩
  else
    ⟨df.cols ++ [⟨n, d, cs⟩]⟩

/-! String utilities (src/utils.py `clean_string`): Python `str.strip()` removes
the whitespace characters space, tab, newline, carriage return, vertical tab
and form feed from both ends; `str.lower()` lowercases (ASCII here). -/

/-- Whitespace characters stripped by Python `str.strip()`. -/
def isPySpace (c : Char) : Bool :=
  c == ' ' || c == '\t' || c == '\n' || c == '\r' || c == '\x0b' || c == '\x0c'

/-- ASCII lowercasing of one character, as Python `str.lower()` does on ASCII. -/
def asciiLowerChar : Char → Char
  | 'A' => 'a' | 'B' => 'b' | 'C' => 'c' | 'D' => 'd' | 'E' => 'e'
  | 'F' => 'f' | 'G' => 'g' | 'H' => 'h' | 'I' => 'i' | 'J' => 'j'
  | 'K' => 'k' | 'L' => 'l' | 'M' => 'm' | 'N' => 'n' | 'O' => 'o'
  | 'P' => 'p' | 'Q' => 'q' | 'R' => 'r' | 'S' => 's' | 'T' => 't'
  | 'U' => 'u' | 'V' => 'v' | 'W' => 'w' | 'X' => 'x' | 'Y' => 'y'
  | 'Z' => 'z'
  | c => c

/-- Strip `isPySpace` characters from both ends of a character list. -/
def stripList (l : List Char) : List Char :=
  ((l.dropWhile isPySpace).reverse.dropWhile isPySpace).reverse

/-- Python `str(text).strip().lower()` on a string. -/
def pyStripLower (s : String) : String :=
  ⟨(stripList s.data).map asciiLowerChar⟩

/-- utils.clean_string: null maps to null, otherwise strip then lowercase. -/
def clean_string : Option String → Option String
  | none => none
  | some s => some (pyStripLower s)

/-! Location normalizer (src/transformers/location_transformer.py). -/

/-- LOCATION_MAPPING: the static alias table. -/
def LOCATION_MAPPING : List (String × String) :=
  [("ny", "new york"), ("nyc", "new york city"), ("n.y.", "new york"),
   ("ca", "california"), ("fl", "florida"), ("tx", "texas"),
   ("pa", "pennsylvania"), ("mass", "massachusetts"), ("ma", "massachusetts"),
   ("il", "illinois"), ("oh", "ohio"), ("ga", "georgia"),
   ("nc", "north carolina"), ("nj", "new jersey"), ("wash", "washington"),
   ("wa", "washington"), ("dc", "district of columbia"),
   ("d.c.", "district of columbia")]

/-- Python `LOCATION_MAPPING.get(cleaned, cleaned)`. -/
def lookupMapping (k : String) : String :=
  match LOCATION_MAPPING.find? (fun p => p.1 == k) with
  | some p => p.2
  | none => k

/-- location_transformer.clean_location: null maps to null, otherwise clean the
string and apply the alias mapping when one exists. -/
def clean_location : Option String → Option String
  | none => none
  | some s =>
    match clean_string (some s) with
    | none => none
    | some cleaned => some (lookupMapping cleaned)

/-! Missing-value resolver (src/transformers/missing_value_handler.py). -/

/-- Number of null cells in a column (`df[column].isna().sum()`). -/
def Column.countNulls (c : Column) : Nat :=
  c.cells.countP (fun x => x == Cell.null)

/-- Total number of missing values in the frame (`df.isna().sum().sum()`). -/
def DataFrame.totalMissing (df : DataFrame) : Nat :=
  (df.cols.map Column.countNulls).sum

/-- Series `fillna(v)`: replace null cells by `v`. -/
def fillnaCells (cs : List Cell) (v : Cell) : List Cell :=
  cs.map (fun c => if c == Cell.null then v else c)

/-- One column of the `default` strategy: a column with missing values is
filled with `0` when numeric, left alone when datetime, filled with the
string literal `Unknown` otherwise; a column without missing values is
untouched. -/
def defaultFillColumn (c : Column) : Column :=
  if c.countNulls > 0 then
    match c.dtype with
    | Dtype.numeric => ⟨c.name, c.dtype, fillnaCells c.cells (Cell.num 0)⟩
    | Dtype.datetime => c
    | Dtype.object => ⟨c.name, c.dtype, fillnaCells c.cells (Cell.str "Unknown")⟩
  else c

/-- `df.dropna()`: drop every row that has a null in any column. -/
def dropRowsWithNull (df : DataFrame) : DataFrame :=
  let bad : Nat → Bool := fun i => df.cols.any (fun c => c.cells.get? i == some Cell.null)
  ⟨df.cols.map (fun c => ⟨c.name, c.dtype, (c.cells.enum.filter (fun p => !bad p.1)).map Prod.snd⟩)⟩

/-- `df.drop(columns=...)` of the columns that have at least one null. -/
def dropColsWithNull (df : DataFrame) : DataFrame :=
  ⟨df.cols.filter (fun c => c.countNulls == 0)⟩

/-- missing_value_handler.handle_missing_values: when the frame has no missing
values it is returned unchanged; otherwise the chosen strategy runs, any
unrecognized strategy string falling through to the `default` branch. -/
def handle_missing_values (df : DataFrame) (strategy : String) : DataFrame :=
  if df.totalMissing == 0 then df
  else if strategy == "drop_rows" then dropRowsWithNull df
  else if strategy == "drop_columns" then dropColsWithNull df
  else ⟨df.cols.map defaultFillColumn⟩

/-! Date standardizer (src/utils.py and src/transformers/date_transformer.py).
The third-party best-effort parser (`dateutil.parser.parse`) is external to
the repository, so it is a parameter `parse : String → Option PyDate`; a parse
failure (Python exception, caught in `parse_date_string`) is `none`. -/

/-- A parsed calendar date (the fields of a Python datetime that `%Y-%m-%d`
rendering consults). -/
structure PyDate where
  year : Nat
  month : Nat
  day : Nat
deriving DecidableEq

/-- Zero-pad to two digits, as strftime `%m` / `%d` do. -/
def pad2 (n : Nat) : String :=
  if n < 10 then "0" ++ toString n else toString n

/-- Zero-pad to four digits, as strftime `%Y` does. -/
def pad4 (n : Nat) : String :=
  if n < 10 then "000" ++ toString n
  else if n < 100 then "00" ++ toString n
  else if n < 1000 then "0" ++ toString n
  else toString n

/-- The `YYYY-MM-DD` rendering of a date (strftime with format `%Y-%m-%d`). -/
def formatYMD (d : PyDate) : String :=
  pad4 d.year ++ "-" ++ pad2 d.month ++ "-" ++ pad2 d.day

/-- Decimal rendering of a rational (integers render like Python integers). -/
def ratStr (q : Rat) : String :=
  if q.den == 1 then toString q.num else toString q.num ++ "/" ++ toString q.den

/-- Python `str(x)` on a cell value, as fed to the date parser. -/
def cellStr : Cell → String
  | Cell.null => "nan"
  | Cell.num q => ratStr q
  | Cell.str s => s
  | Cell.date y m d => formatYMD ⟨y, m, d⟩

/-- utils.parse_date_string: null and the empty string parse to null; anything
else goes to the external parser, whose failure is also null. -/
def parse_date_string (parse : String → Option PyDate) : Cell → Option PyDate
  | Cell.null => none
  | Cell.str s => if s == "" then none else parse s
  | c => parse (cellStr c)

/-- utils.standardize_date_format: null stays null, otherwise strftime. -/
def standardize_date_format : Option PyDate → Option String
  | none => none
  | some d => some (formatYMD d)

/-- The per-cell transform the date stage applies:
`standardize_date_format(parse_date_string(x))`. -/
def stdDateCell (parse : String → Option PyDate) (c : Cell) : Cell :=
  match standardize_date_format (parse_date_string parse c) with
  | none => Cell.null
  | some s => Cell.str s

/-- date_transformer.standardize_dates: rewrite each candidate column that
exists; when none exists, return the input unchanged.  Rewritten columns hold
strings or nulls afterwards, hence object dtype. -/
def standardize_dates (parse : String → Option PyDate) (df : DataFrame)
    (date_columns : List String) : DataFrame :=
  let existing := date_columns.filter (fun c => df.hasCol c)
  if existing.isEmpty then df
  else
    ⟨df.cols.map (fun c =>
      if existing.contains c.name then
        ⟨c.name, Dtype.object, c.cells.map (stdDateCell parse)⟩
      else c)⟩

/-- config.DATE_FIELDS: the configured candidate date columns. -/
def DATE_FIELDS : List String :=
  ["date", "report_date", "vaccination_date", "admission_date"]

/-- config.LOCATION_FIELDS: the configured candidate location columns. -/
def LOCATION_FIELDS : List String :=
  ["region", "location", "state", "county", "hospital_location"]

/-- View of a cell as the value passed to `clean_location`. -/
def cellLocOpt : Cell → Option String
  | Cell.null => none
  | Cell.str s => some s
  | c => some (cellStr c)

/-- The per-cell transform of the location stage. -/
def locCell (c : Cell) : Cell :=
  match clean_location (cellLocOpt c) with
  | none => Cell.null
  | some s => Cell.str s

/-- location_transformer.normalize_locations: map each existing candidate
column through `clean_location`; no-op when none exists. -/
def normalize_locations (df : DataFrame) (location_columns : List String) : DataFrame :=
  let existing := location_columns.filter (fun c => df.hasCol c)
  if existing.isEmpty then df
  else
    ⟨df.cols.map (fun c =>
      if existing.contains c.name then
        ⟨c.name, Dtype.object, c.cells.map locCell⟩
      else c)⟩

/-! Derived-metric calculator (src/transformers/calculator.py).  The body can
raise (pandas raises a TypeError when a source column holds strings), so it is
modelled in `Except`; the stage's catch-all then returns the original frame. -/

/-- One ratio rule: output column, numerator column, denominator column. -/
structure RateRule where
  outCol : String
  numCol : String
  denCol : String
deriving DecidableEq

/-- The four derived-field rules, in source order. -/
def RATE_RULES : List RateRule :=
  [⟨"positivity_rate", "positive_tests", "total_tests"⟩,
   ⟨"case_fatality_rate", "deaths", "confirmed_cases"⟩,
   ⟨"vaccination_rate", "total_vaccinations", "population"⟩,
   ⟨"hospital_utilization_rate", "occupied_beds", "total_beds"⟩]

/-- A cell as an operand of series division: null is NaN, numbers divide,
a string or date operand raises. -/
def cellToNum : Cell → Except String (Option Rat)
  | Cell.null => Except.ok none
  | Cell.num q => Except.ok (some q)
  | Cell.str _ => Except.error "unsupported operand type for division"
  | Cell.date _ _ _ => Except.error "unsupported operand type for division"

/-- A whole series as division operands. -/
def seriesToNums : List Cell → Except String (List (Option Rat))
  | [] => Except.ok []
  | c :: cs =>
    match cellToNum c with
    | Except.error e => Except.error e
    | Except.ok v =>
      match seriesToNums cs with
      | Except.error e => Except.error e
      | Except.ok vs => Except.ok (v :: vs)

/-- One derived cell: `(num / den.replace(0, nan)).fillna(0) * 100`. -/
def rateVal (n d : Option Rat) : Cell :=
  let dz := if d == some 0 then none else d
  let q : Option Rat :=
    match n, dz with
    | some a, some b => some (a / b)
    | _, _ => none
  Cell.num (q.getD 0 * 100)

/-- Apply one rule: only when both source columns exist, assign the derived
column; otherwise leave the frame alone. -/
def applyRule (df : DataFrame) (r : RateRule) : Except String DataFrame :=
  match df.findCol r.numCol, df.findCol r.denCol with
  | some cn, some cd =>
    match seriesToNums cn.cells, seriesToNums cd.cells with
    | Except.ok ns, Except.ok ds =>
      Except.ok (df.setCol r.outCol Dtype.numeric (List.zipWith rateVal ns ds))
    | Except.error e, _ => Except.error e
    | _, Except.error e => Except.error e
  | _, _ => Except.ok df

/-- Apply the rules in order, stopping at the first raised error. -/
def applyRules (df : DataFrame) : List RateRule → Except String DataFrame
  | [] => Except.ok df
  | r :: rs =>
    match applyRule df r with
    | Except.ok df2 => applyRules df2 rs
    | Except.error e => Except.error e

/-- The try-block of calculator.create_calculated_fields. -/
def create_calculated_fields_core (df : DataFrame) : Except String DataFrame :=
  applyRules df RATE_RULES

/-- calculator.create_calculated_fields: the body under the stage's catch-all,
which returns the original frame on any error. -/
def create_calculated_fields (df : DataFrame) : DataFrame :=
  match create_calculated_fields_core df with
  | Except.ok r => r
  | Except.error _ => df

/-- True when both source columns of a rule exist in the frame. -/
def applicable (df : DataFrame) (r : RateRule) : Bool :=
  df.hasCol r.numCol && df.hasCol r.denCol

/-- Cells of a named column (empty when the column is absent). -/
def colCells (df : DataFrame) (n : String) : List Cell :=
  match df.findCol n with
  | some c => c.cells
  | none => []

/-- A series of numeric cells as division operands (total version, defined on
columns that hold only numbers and nulls). -/
def numsOf (cs : List Cell) : List (Option Rat) :=
  cs.map (fun c =>
    match c with
    | Cell.num q => some q
    | _ => none)

/-- True when every cell of a series is a number or a null. -/
def allNumCells (cs : List Cell) : Bool :=
  cs.all (fun c =>
    match c with
    | Cell.null => true
    | Cell.num _ => true
    | _ => false)

/-- The column a rule produces, in terms of the input frame. -/
def derivedColumn (df : DataFrame) (r : RateRule) : Column :=
  ⟨r.outCol, Dtype.numeric,
    List.zipWith rateVal (numsOf (colCells df r.numCol)) (numsOf (colCells df r.denCol))⟩

/-! Expectation validator (src/validators/data_validator.py). -/

/-- One expectation result: description, passed flag, detail string. -/
structure VResult where
  expectation : String
  success : Bool
  details : String
deriving DecidableEq

/-- The validator: the frame under test and the report accumulated so far. -/
structure Validator where
  df : DataFrame
  validation_results : List VResult
deriving DecidableEq

/-- SimpleValidator._add_result. -/
def Validator.addResult (v : Validator) (expectation : String) (success : Bool)
    (details : String) : Validator :=
  ⟨v.df, v.validation_results ++ [⟨expectation, success, details⟩]⟩

/-- Description string of the existence expectation. -/
def existsMsg (column : String) : String :=
  "Column \x27" ++ column ++ "\x27 exists"

/-- SimpleValidator.expect_column_to_exist. -/
def expect_column_to_exist (v : Validator) (column : String) : Bool × Validator :=
  let result := v.df.hasCol column
  (result, v.addResult (existsMsg column) result "")

/-- Description string of the not-null expectation. -/
def notNullMsg (column : String) : String :=
  "Column \x27" ++ column ++ "\x27 has no null values"

/-- SimpleValidator.expect_column_values_to_not_be_null. -/
def expect_column_values_to_not_be_null (v : Validator) (column : String) :
    Bool × Validator :=
  match expect_column_to_exist v column with
  | (false, v1) => (false, v1)
  | (_, v1) =>
    let null_count :=
      match v1.df.findCol column with
      | some col => col.countNulls
      | none => 0
    let result := null_count == 0
    (result, v1.addResult (notNullMsg column) result
      (if result then "" else toString null_count ++ " null values found"))

/-- An upper range bound: a number, or `float(\x27inf\x27)`. -/
inductive Bound where
  | val : Rat → Bound
  | posInf : Bound
deriving DecidableEq

/-- Rendering of a bound (`str(float(\x27inf\x27))` is `inf`). -/
def boundStr : Bound → String
  | Bound.val q => ratStr q
  | Bound.posInf => "inf"

/-- Comparison against an upper bound. -/
def leBound (q : Rat) (b : Bound) : Bool :=
  match b with
  | Bound.val m => q ≤ m
  | Bound.posInf => true

/-- Description string of the range expectation. -/
def betweenMsg (column : String) (mn : Rat) (mx : Bound) : String :=
  "Column \x27" ++ column ++ "\x27 values between " ++ ratStr mn ++ " and " ++ boundStr mx

/-- The numeric values of a series: what `dropna()` leaves on the numeric
columns this check is used on. -/
def ratValues (cs : List Cell) : List Rat :=
  cs.filterMap (fun c =>
    match c with
    | Cell.num q => some q
    | _ => none)

/-- Minimum of a nonempty list of rationals (0 as junk value on `[]`). -/
def listMin : List Rat → Rat
  | [] => 0
  | q :: qs => qs.foldl min q

/-- Maximum of a nonempty list of rationals (0 as junk value on `[]`). -/
def listMax : List Rat → Rat
  | [] => 0
  | q :: qs => qs.foldl max q

/-- SimpleValidator.expect_column_values_to_be_between: existence pre-check,
then failure when the column has no non-null values, otherwise pass iff the
observed minimum and maximum sit inside the requested range, the detail
string reporting the observed range on failure. -/
def expect_column_values_to_be_between (v : Validator) (column : String)
    (min_value : Rat) (max_value : Bound) : Bool × Validator :=
  match expect_column_to_exist v column with
  | (false, v1) => (false, v1)
  | (_, v1) =>
    let cells :=
      match v1.df.findCol column with
      | some col => col.cells
      | none => []
    let values := ratValues cells
    if values.length == 0 then
      (false, v1.addResult (betweenMsg column min_value max_value) false
        "Column has no non-null values")
    else
      let min_actual := listMin values
      let max_actual := listMax values
      let result := decide (min_value ≤ min_actual) && leBound max_actual max_value
      (result, v1.addResult (betweenMsg column min_value max_value) result
        (if result then ""
         else "Range is " ++ ratStr min_actual ++ " to " ++ ratStr max_actual))

/-- SimpleValidator.validate: true iff every recorded expectation passed
(`success_count == total`). -/
def Validator.validate (v : Validator) : Bool :=
  v.validation_results.countP (fun r => r.success) == v.validation_results.length

/-- Python `pat in s` on strings. -/
def strContainsTok (s : String) (pat : String) : Bool :=
  s.data.tails.any (fun t => pat.data.isPrefixOf t)

/-- ASCII `str.lower()` on a whole string. -/
def lowerStr (s : String) : String :=
  ⟨s.data.map asciiLowerChar⟩

/-- validate_covid_data date-column auto-detection: the first column whose
lowercased name contains `date`. -/
def findDateColumn (df : DataFrame) : Option String :=
  df.names.find? (fun n => strContainsTok (lowerStr n) "date")

/-- validate_covid_data location-column auto-detection. -/
def findLocationColumn (df : DataFrame) : Option String :=
  df.names.find? (fun n =>
    ["region", "location", "state"].any (fun k => strContainsTok (lowerStr n) k))

/-- The date-column block of validate_covid_data: when a date-like column was
detected, require existence and non-null; otherwise do nothing at all. -/
def dateChecks (v : Validator) : Validator :=
  match findDateColumn v.df with
  | none => v
  | some c => (expect_column_values_to_not_be_null (expect_column_to_exist v c).2 c).2

/-- The location-column block of validate_covid_data. -/
def locationChecks (v : Validator) : Validator :=
  match findLocationColumn v.df with
  | none => v
  | some c => (expect_column_values_to_not_be_null (expect_column_to_exist v c).2 c).2

/-- The range check validate_covid_data runs on one numeric column. -/
def numericCheckOne (v : Validator) (col : Column) : Validator :=
  if strContainsTok (lowerStr col.name) "rate" ||
      strContainsTok (lowerStr col.name) "percentage" then
    (expect_column_values_to_be_between v col.name 0 (Bound.val 100)).2
  else if ["cases", "deaths", "tests", "vaccinations"].any
      (fun k => strContainsTok (lowerStr col.name) k) then
    (expect_column_values_to_be_between v col.name 0 Bound.posInf).2
  else v

/-- The numeric-column block of validate_covid_data. -/
def numericChecks (v : Validator) : Validator :=
  (v.df.cols.filter (fun c => c.dtype == Dtype.numeric)).foldl numericCheckOne v

/-- The validator state validate_covid_data builds for a frame. -/
def covidChecks (df : DataFrame) : Validator :=
  numericChecks (locationChecks (dateChecks ⟨df, []⟩))

/-- data_validator.validate_covid_data: the dataset validation entry point. -/
def validate_covid_data (df : DataFrame) : Bool :=
  (covidChecks df).validate

/-- A stand-in for the external date parser that always fails. -/
def stubParse : String → Option PyDate :=
  fun _ => none

/-- The per-cell dispatch of the `default` missing-value strategy: a missing
value becomes 0 in a numeric column, stays null in a temporal column, and
becomes the string `Unknown` in any other column; non-missing cells are
unchanged. -/
def defaultFillCell : Dtype → Cell → Cell
  | Dtype.numeric, Cell.null => Cell.num 0
  | Dtype.datetime, Cell.null => Cell.null
  | Dtype.object, Cell.null => Cell.str "Unknown"
  | _, c => c

/-- The uppercase ASCII letters. -/
def upperChars : List Char :=
  ['A', 'B', 'C', 'D', 'E', 'F', 'G', 'H', 'I', 'J', 'K', 'L', 'M',
   'N', 'O', 'P', 'Q', 'R', 'S', 'T', 'U', 'V', 'W', 'X', 'Y', 'Z']

/-- The lowercase ASCII letters. -/
def lowerChars : List Char :=
  ['a', 'b', 'c', 'd', 'e', 'f', 'g', 'h', 'i', 'j', 'k', 'l', 'm',
   'n', 'o', 'p', 'q', 'r', 's', 't', 'u', 'v', 'w', 'x', 'y', 'z']

/-! Theorems. -/

/-- Lowercasing either fixes a character or maps an uppercase letter to a
lowercase one. -/
theorem asciiLowerChar_cases (c : Char) :
    asciiLowerChar c = c ∨ (c ∈ upperChars ∧ asciiLowerChar c ∈ lowerChars) := by
  unfold asciiLowerChar
  split
  all_goals first
    | (left; rfl)
    | (right; exact ⟨by decide, by decide⟩)

/-- Lowercase letters are fixed points of lowercasing. -/
theorem asciiLowerChar_fix_of_lower : ∀ c ∈ lowerChars, asciiLowerChar c = c := by
  decide

/-- Lowercasing is idempotent. -/
theorem asciiLowerChar_idem (c : Char) :
    asciiLowerChar (asciiLowerChar c) = asciiLowerChar c := by
  rcases asciiLowerChar_cases c with h | ⟨_, h2⟩
  · rw [h, h]
  · exact asciiLowerChar_fix_of_lower _ h2

/-- Letters are not whitespace. -/
theorem isPySpace_false_of_upper : ∀ c ∈ upperChars, isPySpace c = false := by
  decide

/-- Lowercase letters are not whitespace. -/
theorem isPySpace_false_of_lower : ∀ c ∈ lowerChars, isPySpace c = false := by
  decide

/-- Lowercasing preserves whitespace-ness. -/
theorem isPySpace_asciiLowerChar (c : Char) :
    isPySpace (asciiLowerChar c) = isPySpace c := by
  rcases asciiLowerChar_cases c with h | ⟨h1, h2⟩
  · rw [h]
  · rw [isPySpace_false_of_upper c h1, isPySpace_false_of_lower _ h2]

/-- The head of a dropWhile result fails the predicate. -/
theorem dropWhile_head_false {α : Type} (p : α → Bool) (l : List α) (a : α)
    (t : List α) (h : l.dropWhile p = a :: t) : p a = false := by
  induction l with
  | nil => simp [List.dropWhile] at h
  | cons x xs ih =>
    rw [List.dropWhile_cons] at h
    by_cases hx : p x = true
    · rw [if_pos hx] at h
      exact ih h
    · rw [if_neg hx] at h
      injection h with h1 _
      rw [← h1]
      simpa using hx

/-- dropWhile is idempotent. -/
theorem dropWhile_idem {α : Type} (p : α → Bool) (l : List α) :
    (l.dropWhile p).dropWhile p = l.dropWhile p := by
  cases h : l.dropWhile p with
  | nil => rfl
  | cons a t =>
    rw [List.dropWhile_cons, if_neg]
    simp [dropWhile_head_false p l a t h]

/-- A list whose head fails the predicate is fixed by dropWhile. -/
theorem dropWhile_eq_self {α : Type} (p : α → Bool) (l : List α)
    (h : ∀ a, l.head? = some a → p a = false) : l.dropWhile p = l := by
  cases l with
  | nil => rfl
  | cons x xs =>
    rw [List.dropWhile_cons, if_neg]
    simp [h x rfl]

/-- dropWhile preserves the last element when its result is nonempty. -/
theorem getLast?_dropWhile {α : Type} (p : α → Bool) (l : List α)
    (h : l.dropWhile p ≠ []) : (l.dropWhile p).getLast? = l.getLast? := by
  induction l with
  | nil => exact absurd rfl h
  | cons x xs ih =>
    rw [List.dropWhile_cons]
    rw [List.dropWhile_cons] at h
    by_cases hx : p x = true
    · rw [if_pos hx] at h ⊢
      have hxs : xs ≠ [] := by
        intro he
        rw [he] at h
        exact h rfl
      rw [ih h]
      cases xs with
      | nil => exact absurd rfl hxs
      | cons y ys => rw [List.getLast?_cons_cons]
    · rw [if_neg hx]

/-- Stripping both ends is idempotent. -/
theorem stripList_idem (l : List Char) : stripList (stripList l) = stripList l := by
  unfold stripList
  set u := l.dropWhile isPySpace with hu
  set w := u.reverse.dropWhile isPySpace with hw
  have h1 : w.reverse.dropWhile isPySpace = w.reverse := by
    apply dropWhile_eq_self
    intro a ha
    rw [List.head?_reverse] at ha
    have hwne : w ≠ [] := by
      intro he
      rw [he] at ha
      simp at ha
    have h2 : w.getLast? = u.reverse.getLast? := by
      rw [hw]
      exact getLast?_dropWhile _ _ (by rw [← hw]; exact hwne)
    rw [h2, List.getLast?_reverse] at ha
    obtain ⟨ys, hys⟩ := List.head?_eq_some_iff.mp ha
    apply dropWhile_head_false isPySpace l a ys
    rw [← hu]
    exact hys
  rw [h1, List.reverse_reverse, hw, dropWhile_idem]

/-- Stripping commutes with lowercasing. -/
theorem stripList_map_lower (l : List Char) :
    stripList (l.map asciiLowerChar) = (stripList l).map asciiLowerChar := by
  unfold stripList
  have hp : (isPySpace ∘ asciiLowerChar) = isPySpace := by
    funext c
    exact isPySpace_asciiLowerChar c
  rw [List.dropWhile_map, hp, ← List.map_reverse, List.dropWhile_map, hp, ← List.map_reverse]

/-- Lowercasing a list twice equals lowercasing once. -/
theorem map_lower_idem (l : List Char) :
    (l.map asciiLowerChar).map asciiLowerChar = l.map asciiLowerChar := by
  rw [List.map_map]
  apply List.map_congr_left
  intro a _
  exact asciiLowerChar_idem a

/-- The Python strip-then-lower cleaning is idempotent. -/
theorem pyStripLower_idem (s : String) : pyStripLower (pyStripLower s) = pyStripLower s := by
  unfold pyStripLower
  congr 1
  show (stripList ((stripList s.data).map asciiLowerChar)).map asciiLowerChar = _
  rw [stripList_map_lower, stripList_idem, map_lower_idem]

/-- Every canonical value of the alias table is already clean and is not an
alias key. -/
theorem table_values_clean :
    ∀ p ∈ LOCATION_MAPPING, pyStripLower p.2 = p.2 ∧
      LOCATION_MAPPING.find? (fun q => q.1 == p.2) = none := by
  decide

/-- Canonical alias-table values are fixed points of clean_location. -/
theorem clean_value_fixed :
    ∀ p ∈ LOCATION_MAPPING, clean_location (some p.2) = some p.2 := by
  intro p hp
  obtain ⟨h1, h2⟩ := table_values_clean p hp
  show some (lookupMapping (pyStripLower p.2)) = some p.2
  rw [h1]
  unfold lookupMapping
  rw [h2]

/-- Either the cleaned token hits the alias table and the result is a table
value, or it misses and passes through. -/
theorem lookupMapping_cases (t : String) :
    (∃ p ∈ LOCATION_MAPPING, lookupMapping t = p.2) ∨
    (lookupMapping t = t ∧ LOCATION_MAPPING.find? (fun q => q.1 == t) = none) := by
  unfold lookupMapping
  cases hf : LOCATION_MAPPING.find? (fun q => q.1 == t) with
  | some p => exact Or.inl ⟨p, List.mem_of_find?_eq_some hf, rfl⟩
  | none => exact Or.inr ⟨rfl, rfl⟩

/-- Cells that are not null are untouched by the default fill. -/
theorem defaultFillCell_of_not_null (d : Dtype) (c : Cell)
    (h : (c == Cell.null) = false) : defaultFillCell d c = c := by
  cases d <;> cases c <;> simp_all [defaultFillCell]

/-- The default fill is idempotent on each cell. -/
theorem defaultFillCell_idem (d : Dtype) (c : Cell) :
    defaultFillCell d (defaultFillCell d c) = defaultFillCell d c := by
  cases d <;> cases c <;> rfl

/-- A series without nulls is untouched by the default fill. -/
theorem map_defaultFillCell_of_no_null (d : Dtype) (cs : List Cell)
    (h : cs.countP (fun x => x == Cell.null) = 0) :
    cs.map (defaultFillCell d) = cs := by
  have h' := List.countP_eq_zero.mp h
  have : cs.map (defaultFillCell d) = cs.map id := by
    apply List.map_congr_left
    intro a ha
    exact defaultFillCell_of_not_null d a (by simpa using h' a ha)
  rw [this, List.map_id]

/-- One column of the default strategy equals the per-cell dispatch. -/
theorem defaultFillColumn_eq (col : Column) :
    defaultFillColumn col = ⟨col.name, col.dtype, col.cells.map (defaultFillCell col.dtype)⟩ := by
  unfold defaultFillColumn
  by_cases h : col.countNulls > 0
  · rw [if_pos h]
    rcases col with ⟨n, d, cs⟩
    cases d
    · show Column.mk n Dtype.numeric (fillnaCells cs (Cell.num 0)) = _
      congr 1
      unfold fillnaCells
      apply List.map_congr_left
      intro a _
      cases a <;> rfl
    · show Column.mk n Dtype.datetime cs = _
      congr 1
      have : cs.map (defaultFillCell Dtype.datetime) = cs.map id := by
        apply List.map_congr_left
        intro a _
        cases a <;> rfl
      rw [this, List.map_id]
    · show Column.mk n Dtype.object (fillnaCells cs (Cell.str "Unknown")) = _
      congr 1
      unfold fillnaCells
      apply List.map_congr_left
      intro a _
      cases a <;> rfl
  · rw [if_neg h]
    have h0 : col.countNulls = 0 := Nat.eq_zero_of_not_pos h
    rcases col with ⟨n, d, cs⟩
    have := map_defaultFillCell_of_no_null d cs h0
    simp only [this]

/-- The default strategy, with its no-missing-values early return and its
per-column missing-count guards collapsed, is exactly the per-cell dispatch
applied everywhere. -/
theorem handle_default_eq (df : DataFrame) :
    handle_missing_values df "default" =
      ⟨df.cols.map (fun col =>
        ⟨col.name, col.dtype, col.cells.map (defaultFillCell col.dtype)⟩)⟩ := by
  unfold handle_missing_values
  by_cases h0 : df.totalMissing = 0
  · rw [if_pos (by simpa using h0)]
    have hall : ∀ col ∈ df.cols, col.countNulls = 0 := by
      intro col hc
      have hs := List.sum_eq_zero_iff.mp h0
      exact hs col.countNulls (List.mem_map_of_mem Column.countNulls hc)
    have : df.cols.map (fun col =>
        Column.mk col.name col.dtype (col.cells.map (defaultFillCell col.dtype))) = df.cols := by
      have : df.cols.map (fun col =>
          Column.mk col.name col.dtype (col.cells.map (defaultFillCell col.dtype))) =
          df.cols.map id := by
        apply List.map_congr_left
        intro col hc
        rw [map_defaultFillCell_of_no_null col.dtype col.cells (hall col hc)]
        rfl
      rw [this, List.map_id]
    rw [this]
  · rw [if_neg (by simpa using h0), if_neg (by decide), if_neg (by decide)]
    congr 1
    apply List.map_congr_left
    intro col _
    exact defaultFillColumn_eq col

/-- C4: the `default` strategy replaces each missing value by the column-kind
dispatch — 0 in numeric columns, preserved null in temporal columns, the
string `Unknown` elsewhere — and leaves every non-missing cell and every
column name unchanged. -/
theorem C4_default_strategy (df : DataFrame) :
    handle_missing_values df "default" =
      ⟨df.cols.map (fun col =>
        ⟨col.name, col.dtype, col.cells.map (defaultFillCell col.dtype)⟩)⟩ :=
  handle_default_eq df

/-- C8: the `default` missing-value strategy is idempotent. -/
theorem C8_default_idempotent (df : DataFrame) :
    handle_missing_values (handle_missing_values df "default") "default" =
      handle_missing_values df "default" := by
  rw [handle_default_eq df, handle_default_eq]
  congr 1
  rw [List.map_map]
  apply List.map_congr_left
  intro col _
  simp only [Function.comp]
  congr 1
  rw [List.map_map]
  apply List.map_congr_left
  intro c _
  exact defaultFillCell_idem col.dtype c

/-- C9: clean_location maps null to null; any other value is trimmed of
surrounding whitespace, lowercased, and looked up in the alias table, the
canonical name returned on a match and the cleaned token passing through
otherwise; in particular `  NY ` normalizes to `new york`, null to null, and
the unmapped `California` to `california`. -/
theorem C9_clean_location_behavior :
    clean_location none = none ∧
    clean_location (some "  NY ") = some "new york" ∧
    clean_location (some "California") = some "california" ∧
    ∀ s : String, clean_location (some s) = some (lookupMapping (pyStripLower s)) :=
  ⟨rfl, by decide, by decide, fun _ => rfl⟩

/-- C5: when the calculator body raises (for example a type mismatch while
dividing), create_calculated_fields catches the error at the stage boundary
and returns its original, untransformed input frame. -/
theorem C5_calculator_fail_open (df : DataFrame) (e : String)
    (h : create_calculated_fields_core df = Except.error e) :
    create_calculated_fields df = df := by
  unfold create_calculated_fields
  rw [h]

/-- C5 witness: a frame whose `positive_tests` column holds a string makes the
body raise, and the stage returns the frame unchanged. -/
theorem C5_witness :
    create_calculated_fields_core ⟨[⟨"positive_tests", Dtype.object, [Cell.str "ten"]⟩,
        ⟨"total_tests", Dtype.numeric, [Cell.num 5]⟩]⟩ =
      Except.error "unsupported operand type for division" ∧
    create_calculated_fields ⟨[⟨"positive_tests", Dtype.object, [Cell.str "ten"]⟩,
        ⟨"total_tests", Dtype.numeric, [Cell.num 5]⟩]⟩ =
      ⟨[⟨"positive_tests", Dtype.object, [Cell.str "ten"]⟩,
        ⟨"total_tests", Dtype.numeric, [Cell.num 5]⟩]⟩ :=
  ⟨by rfl, C5_calculator_fail_open _ "unsupported operand type for division" (by rfl)⟩

/-- C7: when none of the candidate date columns exists in the frame,
standardize_dates returns its input unchanged (identity law). -/
theorem C7_standardize_dates_noop (parse : String → Option PyDate)
    (df : DataFrame) (date_columns : List String)
    (h : ∀ c ∈ date_columns, df.hasCol c = false) :
    standardize_dates parse df date_columns = df := by
  unfold standardize_dates
  have hf : date_columns.filter (fun c => df.hasCol c) = [] := by
    simp only [List.filter_eq_nil_iff]
    intro c hc
    simp [h c hc]
  simp [hf]

/-- C7 witness: a frame with only a `cases` column is untouched by the
configured candidate date columns. -/
theorem C7_witness :
    (∀ c ∈ DATE_FIELDS,
      DataFrame.hasCol ⟨[⟨"cases", Dtype.numeric, [Cell.num 1]⟩]⟩ c = false) ∧
    standardize_dates stubParse ⟨[⟨"cases", Dtype.numeric, [Cell.num 1]⟩]⟩ DATE_FIELDS =
      ⟨[⟨"cases", Dtype.numeric, [Cell.num 1]⟩]⟩ :=
  ⟨by decide, C7_standardize_dates_noop stubParse _ _ (by decide)⟩

/-- C6: the per-cell date standardization maps null to null, the empty string
to null, an unparseable string to null, and a parseable string to the
`YYYY-MM-DD` rendering of the parsed calendar date. -/
theorem C6_date_cell_policy (parse : String → Option PyDate) (s : String) :
    stdDateCell parse Cell.null = Cell.null ∧
    stdDateCell parse (Cell.str s) =
      (if s = "" then Cell.null
       else
         match parse s with
         | none => Cell.null
         | some d => Cell.str (pad4 d.year ++ "-" ++ pad2 d.month ++ "-" ++ pad2 d.day)) := by
  refine ⟨rfl, ?_⟩
  by_cases hs : s = ""
  · simp [stdDateCell, parse_date_string, hs, standardize_date_format]
  · cases hp : parse s <;>
      simp [stdDateCell, parse_date_string, hs, hp, standardize_date_format, formatYMD]

/-- C1 counterexample: a frame with no date-like column at all, whose only
column is a non-null location column, makes validate_covid_data return true,
not false, and the date checks are skipped rather than recorded as failed. -/
theorem C1_counterexample :
    findDateColumn ⟨[⟨"location", Dtype.object, [Cell.str "ny"]⟩]⟩ = none ∧
    validate_covid_data ⟨[⟨"location", Dtype.object, [Cell.str "ny"]⟩]⟩ = true := by
  exact ⟨by decide, by decide⟩

/-- C1 amended: when no column name contains `date`, validate_covid_data
skips the date checks entirely: the validator state it builds equals the one
built from only the location and numeric-range checks, so no report entry
describes the missing date column and the overall result is not forced to
false. -/
theorem C1_amended_no_date_checks (df : DataFrame) (h : findDateColumn df = none) :
    covidChecks df = numericChecks (locationChecks ⟨df, []⟩) := by
  unfold covidChecks dateChecks
  simp [h]

/-- C1 amended witness: the counterexample frame instantiates the amended
claim. -/
theorem C1_amended_witness :
    findDateColumn ⟨[⟨"location", Dtype.object, [Cell.str "ny"]⟩]⟩ = none ∧
    covidChecks ⟨[⟨"location", Dtype.object, [Cell.str "ny"]⟩]⟩ =
      numericChecks (locationChecks ⟨⟨[⟨"location", Dtype.object, [Cell.str "ny"]⟩]⟩, []⟩) :=
  ⟨by decide, C1_amended_no_date_checks _ (by decide)⟩

/-- A column found by name witnesses column existence. -/
theorem hasCol_of_findCol (df : DataFrame) (n : String) (col : Column)
    (h : df.findCol n = some col) : df.hasCol n = true := by
  unfold DataFrame.findCol at h
  unfold DataFrame.hasCol
  rw [List.any_eq_true]
  have hp := List.find?_some h
  exact ⟨col, List.mem_of_find?_eq_some h, hp⟩

/-- On a series of numbers and nulls, the numeric values are exactly the
non-null cells. -/
theorem ratValues_length_eq_nonnull (cs : List Cell) (h : allNumCells cs = true) :
    (ratValues cs).length = (cs.filter (fun c => !(c == Cell.null))).length := by
  induction cs with
  | nil => rfl
  | cons c cs ih =>
    simp only [allNumCells, List.all_cons, Bool.and_eq_true] at h
    obtain ⟨h1, h2⟩ := h
    have ih' := ih (by simpa [allNumCells] using h2)
    cases c with
    | null => simpa [ratValues, List.filter_cons] using ih'
    | num q => simpa [ratValues, List.filter_cons] using ih'
    | str s => simp at h1
    | date y m d => simp at h1

/-- C3: the range expectation first records the existence pre-check; on a
numeric column with zero non-null values it is a recorded failure; otherwise
it passes iff the non-null minimum is at least the requested minimum and the
non-null maximum is at most the requested maximum, the detail string on
failure reporting the observed minimum-to-maximum range. -/
theorem C3_range_check (v : Validator) (column : String) (mn : Rat) (mx : Bound)
    (col : Column) (hcol : v.df.findCol column = some col)
    (hnum : allNumCells col.cells = true) :
    expect_column_values_to_be_between v column mn mx =
      (let v1 := v.addResult (existsMsg column) true ""
       let values := ratValues col.cells
       if (col.cells.filter (fun c => !(c == Cell.null))).length = 0 then
         (false, v1.addResult (betweenMsg column mn mx) false "Column has no non-null values")
       else
         ((decide (mn ≤ listMin values) && leBound (listMax values) mx),
          v1.addResult (betweenMsg column mn mx)
            ((decide (mn ≤ listMin values) && leBound (listMax values) mx))
            (if (decide (mn ≤ listMin values) && leBound (listMax values) mx) = true then ""
             else "Range is " ++ ratStr (listMin values) ++ " to " ++
               ratStr (listMax values)))) := by
  have hc : v.df.hasCol column = true := hasCol_of_findCol v.df column col hcol
  have hdf : (v.addResult (existsMsg column) true "").df = v.df := rfl
  by_cases hz : (ratValues col.cells).length = 0
  · have hz' : (col.cells.filter (fun c => !(c == Cell.null))).length = 0 := by
      rw [← ratValues_length_eq_nonnull col.cells hnum]
      exact hz
    simp only [expect_column_values_to_be_between, expect_column_to_exist, hc, hdf, hcol,
      hz, hz', if_pos, beq_self_eq_true]
  · have hz' : ¬((col.cells.filter (fun c => !(c == Cell.null))).length = 0) := by
      rw [← ratValues_length_eq_nonnull col.cells hnum]
      exact hz
    simp only [expect_column_values_to_be_between, expect_column_to_exist, hc, hdf, hcol]
    rw [if_neg (by simpa using hz), if_neg hz']

/-- C3 witness: a `positivity_rate` column holding 150 fails the [0, 100]
range check, and the detail string reports the observed range 150 to 150. -/
theorem C3_witness :
    expect_column_values_to_be_between
        ⟨⟨[⟨"positivity_rate", Dtype.numeric, [Cell.num 150]⟩]⟩, []⟩
        "positivity_rate" 0 (Bound.val 100) =
      (false,
       ⟨⟨[⟨"positivity_rate", Dtype.numeric, [Cell.num 150]⟩]⟩,
        [⟨"Column \x27positivity_rate\x27 exists", true, ""⟩,
         ⟨"Column \x27positivity_rate\x27 values between 0 and 100", false,
          "Range is 150 to 150"⟩]⟩) := by
  rw [C3_range_check ⟨⟨[⟨"positivity_rate", Dtype.numeric, [Cell.num 150]⟩]⟩, []⟩
      "positivity_rate" 0 (Bound.val 100) ⟨"positivity_rate", Dtype.numeric, [Cell.num 150]⟩
      (by rfl) (by rfl)]
  decide

/-- Division operands of a series of numbers and nulls. -/
theorem seriesToNums_ok (cs : List Cell) (h : allNumCells cs = true) :
    seriesToNums cs = Except.ok (numsOf cs) := by
  induction cs with
  | nil => rfl
  | cons c cs ih =>
    simp only [allNumCells, List.all_cons, Bool.and_eq_true] at h
    obtain ⟨h1, h2⟩ := h
    have ih' := ih (by simpa [allNumCells] using h2)
    cases c with
    | null => simp [seriesToNums, cellToNum, numsOf, ih']
    | num q => simp [seriesToNums, cellToNum, numsOf, ih']
    | str s => simp at h1
    | date y m d => simp at h1

/-- Column existence over an appended column. -/
theorem hasCol_append (cols : List Column) (c : Column) (n : String) :
    DataFrame.hasCol ⟨cols ++ [c]⟩ n = (DataFrame.hasCol ⟨cols⟩ n || (c.name == n)) := by
  simp [DataFrame.hasCol, List.any_append]

/-- Column lookup ignores an appended column of a different name. -/
theorem findCol_append_ne (cols : List Column) (c : Column) (n : String)
    (h : c.name ≠ n) :
    DataFrame.findCol ⟨cols ++ [c]⟩ n = DataFrame.findCol ⟨cols⟩ n := by
  unfold DataFrame.findCol
  rw [List.find?_append]
  have hc : ((c.name == n) : Bool) = false := beq_eq_false_iff_ne.mpr h
  simp [List.find?, hc]

/-- Column cells ignore an appended column of a different name. -/
theorem colCells_append_ne (cols : List Column) (c : Column) (n : String)
    (h : c.name ≠ n) : colCells ⟨cols ++ [c]⟩ n = colCells ⟨cols⟩ n := by
  unfold colCells
  rw [findCol_append_ne cols c n h]

/-- Rule applicability ignores an appended column that is not a source. -/
theorem applicable_append_ne (cols : List Column) (c : Column) (r : RateRule)
    (h1 : r.numCol ≠ c.name) (h2 : r.denCol ≠ c.name) :
    applicable ⟨cols ++ [c]⟩ r = applicable ⟨cols⟩ r := by
  unfold applicable
  rw [hasCol_append, hasCol_append]
  have e1 : ((c.name == r.numCol) : Bool) = false := beq_eq_false_iff_ne.mpr (Ne.symm h1)
  have e2 : ((c.name == r.denCol) : Bool) = false := beq_eq_false_iff_ne.mpr (Ne.symm h2)
  rw [e1, e2, Bool.or_false, Bool.or_false]

/-- Assignment to a fresh column name appends it. -/
theorem setCol_fresh (df : DataFrame) (n : String) (d : Dtype) (cs : List Cell)
    (h : df.hasCol n = false) :
    df.setCol n d cs = ⟨df.cols ++ [⟨n, d, cs⟩]⟩ := by
  simp [DataFrame.setCol, h]

/-- An absent column has no lookup result. -/
theorem findCol_eq_none (df : DataFrame) (n : String) (h : df.hasCol n = false) :
    df.findCol n = none := by
  unfold DataFrame.hasCol at h
  unfold DataFrame.findCol
  rw [List.find?_eq_none]
  rw [List.any_eq_false] at h
  exact h

/-- An existing column has a lookup result. -/
theorem findCol_of_hasCol (df : DataFrame) (n : String) (h : df.hasCol n = true) :
    ∃ col, df.findCol n = some col := by
  unfold DataFrame.hasCol at h
  unfold DataFrame.findCol
  rw [List.any_eq_true] at h
  exact Option.isSome_iff_exists.mp (List.find?_isSome.mpr h)

/-- The derived cell is the ratio times 100, resolving a zero denominator or
a null operand to 0. -/
theorem rateVal_eq :
    rateVal = fun n d =>
      Cell.num (match n, d with
        | some a, some b => if b = 0 then 0 else a / b * 100
        | _, _ => 0) := by
  funext n d
  cases n with
  | none =>
    cases d with
    | none => simp [rateVal]
    | some b => simp [rateVal]
  | some a =>
    cases d with
    | none => simp [rateVal]
    | some b =>
      by_cases hb : b = 0
      · subst hb
        simp [rateVal]
      · have hbb : ((some b == some (0 : Rat)) : Bool) = false :=
          beq_eq_false_iff_ne.mpr (by simpa using hb)
        simp [rateVal, hbb, hb]

/-- Applying the rules in order appends, for each rule whose two source
columns exist, the derived column computed from the input frame. -/
theorem applyRules_spec (rs : List RateRule) (df : DataFrame)
    (hfresh : ∀ r ∈ rs, df.hasCol r.outCol = false)
    (hdist : rs.Pairwise (fun a b => a.outCol ≠ b.outCol))
    (hsrc : ∀ r ∈ rs, ∀ q ∈ rs, r.numCol ≠ q.outCol ∧ r.denCol ≠ q.outCol)
    (hnum : ∀ r ∈ rs, allNumCells (colCells df r.numCol) = true ∧
      allNumCells (colCells df r.denCol) = true) :
    applyRules df rs =
      Except.ok ⟨df.cols ++ (rs.filter (applicable df)).map (derivedColumn df)⟩ := by
  induction rs generalizing df with
  | nil => simp [applyRules]
  | cons r rs ih =>
    have hrfresh : df.hasCol r.outCol = false := hfresh r (List.mem_cons_self r rs)
    have hpc := List.pairwise_cons.mp hdist
    by_cases happ : applicable df r = true
    · have hnumc : df.hasCol r.numCol = true := by
        have h' := happ
        unfold applicable at h'
        exact ((Bool.and_eq_true _ _).mp h').1
      have hdenc : df.hasCol r.denCol = true := by
        have h' := happ
        unfold applicable at h'
        exact ((Bool.and_eq_true _ _).mp h').2
      obtain ⟨cn, hcn⟩ := findCol_of_hasCol df r.numCol hnumc
      obtain ⟨cd, hcd⟩ := findCol_of_hasCol df r.denCol hdenc
      have hcnc : colCells df r.numCol = cn.cells := by unfold colCells; rw [hcn]
      have hcdc : colCells df r.denCol = cd.cells := by unfold colCells; rw [hcd]
      obtain ⟨ha1, ha2⟩ := hnum r (List.mem_cons_self r rs)
      rw [hcnc] at ha1
      rw [hcdc] at ha2
      have hs1 := seriesToNums_ok cn.cells ha1
      have hs2 := seriesToNums_ok cd.cells ha2
      have hder : derivedColumn df r =
          ⟨r.outCol, Dtype.numeric,
            List.zipWith rateVal (numsOf cn.cells) (numsOf cd.cells)⟩ := by
        unfold derivedColumn
        rw [hcnc, hcdc]
      have happly : applyRule df r = Except.ok ⟨df.cols ++ [derivedColumn df r]⟩ := by
        unfold applyRule
        rw [hcn, hcd]
        simp only [hs1, hs2]
        rw [setCol_fresh df r.outCol Dtype.numeric _ hrfresh, hder]
      have hfresh1 : ∀ q ∈ rs,
          DataFrame.hasCol ⟨df.cols ++ [derivedColumn df r]⟩ q.outCol = false := by
        intro q hq
        rw [hasCol_append, hfresh q (List.mem_cons_of_mem r hq)]
        have hne : r.outCol ≠ q.outCol := hpc.1 q hq
        have he : (((derivedColumn df r).name == q.outCol) : Bool) = false :=
          beq_eq_false_iff_ne.mpr hne
        rw [he]
        rfl
      have hsame : ∀ q ∈ rs,
          colCells ⟨df.cols ++ [derivedColumn df r]⟩ q.numCol = colCells df q.numCol ∧
          colCells ⟨df.cols ++ [derivedColumn df r]⟩ q.denCol = colCells df q.denCol := by
        intro q hq
        obtain ⟨hq1, hq2⟩ := hsrc q (List.mem_cons_of_mem r hq) r (List.mem_cons_self r rs)
        exact ⟨colCells_append_ne df.cols _ _ (Ne.symm hq1),
          colCells_append_ne df.cols _ _ (Ne.symm hq2)⟩
      have hnum1 : ∀ q ∈ rs,
          allNumCells (colCells ⟨df.cols ++ [derivedColumn df r]⟩ q.numCol) = true ∧
          allNumCells (colCells ⟨df.cols ++ [derivedColumn df r]⟩ q.denCol) = true := by
        intro q hq
        obtain ⟨e1, e2⟩ := hsame q hq
        obtain ⟨b1, b2⟩ := hnum q (List.mem_cons_of_mem r hq)
        exact ⟨by rw [e1]; exact b1, by rw [e2]; exact b2⟩
      have hsrc1 : ∀ a ∈ rs, ∀ b ∈ rs, a.numCol ≠ b.outCol ∧ a.denCol ≠ b.outCol :=
        fun a ha b hb =>
          hsrc a (List.mem_cons_of_mem r ha) b (List.mem_cons_of_mem r hb)
      have hrec := ih ⟨df.cols ++ [derivedColumn df r]⟩ hfresh1 hpc.2 hsrc1 hnum1
      have hstep : applyRules df (r :: rs) =
          applyRules ⟨df.cols ++ [derivedColumn df r]⟩ rs := by
        show (match applyRule df r with
          | Except.ok df2 => applyRules df2 rs
          | Except.error e => Except.error e) = _
        rw [happly]
      rw [hstep, hrec]
      have hfilt : rs.filter (applicable ⟨df.cols ++ [derivedColumn df r]⟩) =
          rs.filter (applicable df) := by
        apply List.filter_congr
        intro q hq
        obtain ⟨hq1, hq2⟩ := hsrc q (List.mem_cons_of_mem r hq) r (List.mem_cons_self r rs)
        exact applicable_append_ne df.cols _ q hq1 hq2
      rw [hfilt]
      have hmapc : (rs.filter (applicable df)).map
            (derivedColumn ⟨df.cols ++ [derivedColumn df r]⟩) =
          (rs.filter (applicable df)).map (derivedColumn df) := by
        apply List.map_congr_left
        intro q hq
        obtain ⟨e1, e2⟩ := hsame q (List.mem_of_mem_filter hq)
        show Column.mk q.outCol Dtype.numeric
            (List.zipWith rateVal
              (numsOf (colCells ⟨df.cols ++ [derivedColumn df r]⟩ q.numCol))
              (numsOf (colCells ⟨df.cols ++ [derivedColumn df r]⟩ q.denCol))) =
          Column.mk q.outCol Dtype.numeric
            (List.zipWith rateVal (numsOf (colCells df q.numCol))
              (numsOf (colCells df q.denCol)))
        rw [e1, e2]
      rw [hmapc, List.filter_cons, if_pos happ, List.map_cons, List.append_assoc,
        List.singleton_append]
    · have hfalse : applicable df r = false := by
        cases hb : applicable df r
        · rfl
        · exact absurd hb happ
      have happly : applyRule df r = Except.ok df := by
        by_cases h1 : df.hasCol r.numCol = true
        · have h2 : df.hasCol r.denCol = false := by
            cases hb : df.hasCol r.denCol
            · rfl
            · unfold applicable at hfalse
              rw [h1, hb] at hfalse
              simp at hfalse
          have hd := findCol_eq_none df r.denCol h2
          cases hc : df.findCol r.numCol with
          | none => simp [applyRule, hc]
          | some cn => simp [applyRule, hc, hd]
        · have h1' : df.hasCol r.numCol = false := by
            cases hb : df.hasCol r.numCol
            · rfl
            · exact absurd hb h1
          have hn := findCol_eq_none df r.numCol h1'
          simp [applyRule, hn]
      have hrec := ih df (fun q hq => hfresh q (List.mem_cons_of_mem r hq)) hpc.2
        (fun a ha b hb =>
          hsrc a (List.mem_cons_of_mem r ha) b (List.mem_cons_of_mem r hb))
        (fun q hq => hnum q (List.mem_cons_of_mem r hq))
      have hstep : applyRules df (r :: rs) = applyRules df rs := by
        show (match applyRule df r with
          | Except.ok df2 => applyRules df2 rs
          | Except.error e => Except.error e) = _
        rw [happly]
      rw [hstep, hrec, List.filter_cons, if_neg (by simp [hfalse])]

/-- C2: create_calculated_fields appends, for each of the four rules whose two
source columns both exist (and only those), the derived column computed per
record as numerator over denominator times 100, a zero denominator or a null
operand resolving to 0, every original column unchanged; each rule is guarded
independently. -/
theorem C2_calculated_fields (df : DataFrame)
    (hfresh : ∀ r ∈ RATE_RULES, df.hasCol r.outCol = false)
    (hnum : ∀ r ∈ RATE_RULES, allNumCells (colCells df r.numCol) = true ∧
      allNumCells (colCells df r.denCol) = true) :
    (create_calculated_fields df).cols =
      df.cols ++ (RATE_RULES.filter (applicable df)).map (fun r =>
        ⟨r.outCol, Dtype.numeric,
          List.zipWith (fun n d =>
            Cell.num (match n, d with
              | some a, some b => if b = 0 then 0 else a / b * 100
              | _, _ => 0))
          (numsOf (colCells df r.numCol)) (numsOf (colCells df r.denCol))⟩) := by
  have h := applyRules_spec RATE_RULES df hfresh (by decide) (by decide) hnum
  unfold create_calculated_fields create_calculated_fields_core
  rw [h]
  show df.cols ++ (RATE_RULES.filter (applicable df)).map (derivedColumn df) = _
  congr 1
  apply List.map_congr_left
  intro r _
  unfold derivedColumn
  rw [rateVal_eq]

/-- C2 witness: with `positive_tests`/`total_tests` and `deaths`/
`confirmed_cases` present, exactly those two derived columns are appended;
a 0 denominator and a null numerator both give 0, and 5/100 gives 5. -/
theorem C2_witness :
    (create_calculated_fields
      ⟨[⟨"positive_tests", Dtype.numeric, [Cell.num 10, Cell.null]⟩,
        ⟨"total_tests", Dtype.numeric, [Cell.num 0, Cell.num 50]⟩,
        ⟨"deaths", Dtype.numeric, [Cell.num 5]⟩,
        ⟨"confirmed_cases", Dtype.numeric, [Cell.num 100]⟩]⟩).cols =
      [⟨"positive_tests", Dtype.numeric, [Cell.num 10, Cell.null]⟩,
       ⟨"total_tests", Dtype.numeric, [Cell.num 0, Cell.num 50]⟩,
       ⟨"deaths", Dtype.numeric, [Cell.num 5]⟩,
       ⟨"confirmed_cases", Dtype.numeric, [Cell.num 100]⟩,
       ⟨"positivity_rate", Dtype.numeric, [Cell.num 0, Cell.num 0]⟩,
       ⟨"case_fatality_rate", Dtype.numeric, [Cell.num 5]⟩] := by
  rw [C2_calculated_fields _ (by decide) (by decide)]
  have hf : RATE_RULES.filter (applicable
      ⟨[⟨"positive_tests", Dtype.numeric, [Cell.num 10, Cell.null]⟩,
        ⟨"total_tests", Dtype.numeric, [Cell.num 0, Cell.num 50]⟩,
        ⟨"deaths", Dtype.numeric, [Cell.num 5]⟩,
        ⟨"confirmed_cases", Dtype.numeric, [Cell.num 100]⟩]⟩) =
      [⟨"positivity_rate", "positive_tests", "total_tests"⟩,
       ⟨"case_fatality_rate", "deaths", "confirmed_cases"⟩] := by decide
  have h1 : colCells
      ⟨[⟨"positive_tests", Dtype.numeric, [Cell.num 10, Cell.null]⟩,
        ⟨"total_tests", Dtype.numeric, [Cell.num 0, Cell.num 50]⟩,
        ⟨"deaths", Dtype.numeric, [Cell.num 5]⟩,
        ⟨"confirmed_cases", Dtype.numeric, [Cell.num 100]⟩]⟩ "positive_tests" =
      [Cell.num 10, Cell.null] := by decide
  have h2 : colCells
      ⟨[⟨"positive_tests", Dtype.numeric, [Cell.num 10, Cell.null]⟩,
        ⟨"total_tests", Dtype.numeric, [Cell.num 0, Cell.num 50]⟩,
        ⟨"deaths", Dtype.numeric, [Cell.num 5]⟩,
        ⟨"confirmed_cases", Dtype.numeric, [Cell.num 100]⟩]⟩ "total_tests" =
      [Cell.num 0, Cell.num 50] := by decide
  have h3 : colCells
      ⟨[⟨"positive_tests", Dtype.numeric, [Cell.num 10, Cell.null]⟩,
        ⟨"total_tests", Dtype.numeric, [Cell.num 0, Cell.num 50]⟩,
        ⟨"deaths", Dtype.numeric, [Cell.num 5]⟩,
        ⟨"confirmed_cases", Dtype.numeric, [Cell.num 100]⟩]⟩ "deaths" =
      [Cell.num 5] := by decide
  have h4 : colCells
      ⟨[⟨"positive_tests", Dtype.numeric, [Cell.num 10, Cell.null]⟩,
        ⟨"total_tests", Dtype.numeric, [Cell.num 0, Cell.num 50]⟩,
        ⟨"deaths", Dtype.numeric, [Cell.num 5]⟩,
        ⟨"confirmed_cases", Dtype.numeric, [Cell.num 100]⟩]⟩ "confirmed_cases" =
      [Cell.num 100] := by decide
  rw [hf]
  simp only [List.map_cons, List.map_nil, h1, h2, h3, h4]
  norm_num [numsOf]

/-- C10: clean_location is idempotent, and every canonical value of the alias
table is itself a fixed point of the cleaning (already trimmed, lowercase and
not an alias key), so normalizing an already-normalized location changes
nothing. -/
theorem C10_clean_location_idempotent :
    (∀ x : Option String, clean_location (clean_location x) = clean_location x) ∧
    LOCATION_MAPPING.all (fun p => clean_location (some p.2) == some p.2) = true := by
  have base : ∀ u : String,
      clean_location (some u) = some (lookupMapping (pyStripLower u)) := fun _ => rfl
  constructor
  · intro x
    cases x with
    | none => rfl
    | some s =>
      rw [base s]
      rcases lookupMapping_cases (pyStripLower s) with ⟨p, hp, he⟩ | ⟨he, hnone⟩
      · rw [he]
        exact clean_value_fixed p hp
      · rw [he, base, pyStripLower_idem]
        unfold lookupMapping
        rw [hnone]
  · rw [List.all_eq_true]
    intro p hp
    simp [clean_value_fixed p hp]

end CovidEtl
